import Mathlib

/-!
Verification of the ETF risk-classification and multi-factor recommendation
scoring engine (KB_Report).  Shallow embedding of the computational core:

* `scripts/calculate_risk_tier.py` — rolling risk metrics (max drawdown,
  Sharpe), per-metric normalization, the composite `Risk_Score`, and the
  per-date quantile tiering (`pd.qcut(x, 5, labels=False, duplicates='drop')`).
* `scripts/generate_etf_cache.py` — the five factor-score functions and
  `_apply_level_filters` (level assignment over the merged frame).
* `chatbot/recommendation_engine.py` — the engine's copies of the five
  factor-score functions.
* `scripts/precompute_etf_scores_backup.py` — `process_single_etf`, which
  enumerates (level, WMTI type) combinations with risk-tier eligibility.
* `chatbot/utils.py` — `safe_float`.
* `chatbot/config.py` — `LEVEL_RISK_TIER_LIMITS`, `WMTI_TYPE_WEIGHTS`.

Pandas floats are embedded as exact rationals (ℚ); a nullable float column is
`Option ℚ` (None = NaN).  The Sharpe-ratio computation is embedded over ℝ
because it multiplies by √252.
-/

namespace KB

/-! ## calculate_risk_tier.py — configuration

`W_RISK`, the per-metric weights of the composite risk score (lines 31-39). -/

def W_vol : ℚ := 0.25

def W_max_dd : ℚ := 0.15

def W_VaR : ℚ := 0.20

def W_beta : ℚ := 0.10

def W_sharpe : ℚ := 0.15

def W_sortino : ℚ := 0.10

def W_down_dev : ℚ := 0.05

/-! ## calculate_risk_tier.py — max_drawdown (lines 71-88)

`max_drawdown(returns)`: `cum = np.cumprod(1 + returns)`,
`running_max = np.maximum.accumulate(cum)`,
`drawdown = (running_max - cum) / running_max`, `return np.max(drawdown)`. -/

/-- `np.cumprod`: the list of prefix products of `xs`, starting accumulator
`acc` (the caller passes 1). -/
def cumProds (acc : ℚ) : List ℚ → List ℚ
  | [] => []
  | x :: xs => (acc * x) :: cumProds (acc * x) xs

/-- `np.maximum.accumulate` once the first element `m` has been split off. -/
def runningMaxFrom (m : ℚ) : List ℚ → List ℚ
  | [] => [m]
  | c :: cs => m :: runningMaxFrom (max m c) cs

/-- `np.maximum.accumulate`: the running maximum of a list. -/
def runningMax : List ℚ → List ℚ
  | [] => []
  | c :: cs => runningMaxFrom c cs

/-- `np.max` over a (nonempty) array; 0 on the empty list, which the script
never passes (windows have 126 observations). -/
def listMax : List ℚ → ℚ
  | [] => 0
  | d :: ds => ds.foldl max d

/-- `max_drawdown(returns)` of `calculate_risk_tier.py` lines 71-88. -/
def max_drawdown (returns : List ℚ) : ℚ :=
  let cum := cumProds 1 (returns.map (fun r => 1 + r))
  let running_max := runningMax cum
  let drawdown := List.zipWith (fun m c => (m - c) / m) running_max cum
  listMax drawdown

/-! ## calculate_risk_tier.py — Sharpe ratio (lines 121-126)

`mean_r = rolling.mean()`, `std_r = rolling.std(ddof=1).mul(sqrt(252))`,
`df['sharpe'] = mean_r.div(std_r).mul(np.sqrt(252))`.
The rolling window is a list of the trailing daily returns. -/

noncomputable def mean_r (rs : List ℝ) : ℝ := rs.sum / rs.length

/-- Sample variance (`ddof=1`) of a return window. -/
noncomputable def var_sample (rs : List ℝ) : ℝ :=
  ((rs.map (fun x => (x - mean_r rs) ^ 2)).sum) / ((rs.length : ℝ) - 1)

/-- Sample standard deviation (`ddof=1`) of a return window. -/
noncomputable def std_sample (rs : List ℝ) : ℝ := Real.sqrt (var_sample rs)

/-- `std_r`, the annualized volatility column (lines 124-125):
sample std of the window multiplied by √252. -/
noncomputable def std_r (rs : List ℝ) : ℝ := std_sample rs * Real.sqrt 252

/-- `df['sharpe'] = mean_r.div(std_r).mul(np.sqrt(252))` (line 126): the mean
trailing return divided by the annualized volatility, times √252. -/
noncomputable def sharpe (rs : List ℝ) : ℝ := mean_r rs / std_r rs * Real.sqrt 252

/-- Modelled from the spec's words (§4.1): "Sharpe ratio: (mean trailing
return × 252) / annualized volatility".  Stated for comparison with the
code's `sharpe`. -/
noncomputable def sharpe_per_spec (rs : List ℝ) : ℝ := (mean_r rs * 252) / std_r rs

/-! ## calculate_risk_tier.py — normalization and Risk_Score (lines 140-157)

After `df = df.dropna(subset=risk_metrics)` the script computes
`max_vals = {m: df[m].abs().max() for m in risk_metrics}` — a single maximum
per metric over the WHOLE filtered table — and `df['n_m'] = df[m].abs() /
max_vals[m]`, then `df['Risk_Score'] = sum(W_RISK[m] * df['n_m'])`. -/

/-- One row of the filtered metric table: the date (`basDt`, encoded as a
natural number) and the 7 risk-metric columns. -/
structure RiskRow where
  basDt : ℕ
  vol : ℚ
  max_dd : ℚ
  VaR : ℚ
  beta : ℚ
  sharpe : ℚ
  sortino : ℚ
  down_dev : ℚ
deriving DecidableEq

/-- `df[m].abs().max()`: the maximum absolute value of metric `m` over the
table (0 for an empty table; the script's table is nonempty). -/
def maxAbs (table : List RiskRow) (m : RiskRow → ℚ) : ℚ :=
  (table.map (fun r => |m r|)).foldr max 0

/-- `df['n_m'] = df[m].abs() / max_vals[m]` (lines 146-148): the metric's
absolute value divided by the single table-wide maximum. -/
def n_metric (table : List RiskRow) (m : RiskRow → ℚ) (r : RiskRow) : ℚ :=
  |m r| / maxAbs table m

/-- Modelled from the spec's words (§4.2 step 1): "divide its absolute value
by the cross-sectional maximum absolute value on that date (per-metric,
per-date scaling — not global)".  Stated for comparison with the code's
`n_metric`. -/
def n_metric_per_date (table : List RiskRow) (m : RiskRow → ℚ) (r : RiskRow) : ℚ :=
  |m r| / maxAbs (table.filter (fun s => s.basDt == r.basDt)) m

/-- `df['Risk_Score'] = sum(W_RISK[m] * df[f'n_{m}'] for m in risk_metrics)`
(line 157). -/
def Risk_Score (table : List RiskRow) (r : RiskRow) : ℚ :=
  W_vol * n_metric table RiskRow.vol r +
  W_max_dd * n_metric table RiskRow.max_dd r +
  W_VaR * n_metric table RiskRow.VaR r +
  W_beta * n_metric table RiskRow.beta r +
  W_sharpe * n_metric table RiskRow.sharpe r +
  W_sortino * n_metric table RiskRow.sortino r +
  W_down_dev * n_metric table RiskRow.down_dev r

/-! ## calculate_risk_tier.py — risk_tier (lines 164-168)

`df.groupby('basDt')['Risk_Score'].transform(lambda x: pd.qcut(x, 5,
labels=False, duplicates='drop'))`.  `pd.qcut` computes the 0, 20, …, 100
percent quantiles of the date's scores (linear interpolation), drops
duplicate bin edges, and labels a score with the index of the half-open
bin `(e_i, e_(i+1)]` it falls in (the lowest bin is closed below); the label
therefore equals the number of interior bin edges strictly below the score. -/

/-- `np.quantile` with linear interpolation over exact rationals. -/
def quantileLin (xs : List ℚ) (p : ℚ) : ℚ :=
  let s := xs.insertionSort (fun a b => a ≤ b)
  let n := s.length
  let h : ℚ := p * ((n : ℚ) - 1)
  let i : ℕ := (⌊h⌋).toNat
  let lo := s.getD i 0
  let hi := s.getD (min (i + 1) (n - 1)) lo
  lo + (h - (i : ℚ)) * (hi - lo)

/-- The bin edges `pd.qcut(x, 5, duplicates='drop')` uses: the six quantiles
at 0, 1/5, …, 1 with duplicates dropped. -/
def qcutEdges (xs : List ℚ) : List ℚ :=
  (([0, 1/5, 2/5, 3/5, 4/5, 1] : List ℚ).map (fun p => quantileLin xs p)).dedup

/-- The qcut label of score `x` within the date's cross-section `xs`: the
number of interior bin edges strictly below `x`. -/
def risk_tier (xs : List ℚ) (x : ℚ) : ℕ :=
  (((qcutEdges xs).drop 1).dropLast).countP (fun e => decide (e < x))

/-! ## chatbot/config.py — static configuration -/

/-- `LEVEL_RISK_TIER_LIMITS` (config.py lines 195-201). -/
def LEVEL_RISK_TIER_LIMITS : List (ℕ × ℤ) := [(1, 1), (2, 2), (3, 3), (4, 4), (5, 5)]

/-- `Config.get_risk_tier_limit` (config.py lines 348-351): dictionary lookup
with default 4. -/
def get_risk_tier_limit (level : ℕ) : ℤ :=
  (LEVEL_RISK_TIER_LIMITS.lookup level).getD 4

/-- One WMTI archetype's 5-factor weight vector (config.py). -/
structure WmtiWeights where
  return_weight : ℚ
  risk_adjusted_return_weight : ℚ
  cost_efficiency_weight : ℚ
  liquidity_weight : ℚ
  stability_weight : ℚ
deriving DecidableEq

/-- `WMTI_TYPE_WEIGHTS` (config.py lines 107-131): the 16 archetypes. -/
def WMTI_TYPE_WEIGHTS : List (String × WmtiWeights) :=
  [("APWL", ⟨0.35, 0.30, 0.15, 0.15, 0.05⟩),
   ("APML", ⟨0.40, 0.25, 0.15, 0.15, 0.05⟩),
   ("APWC", ⟨0.35, 0.25, 0.20, 0.15, 0.05⟩),
   ("APMC", ⟨0.40, 0.25, 0.15, 0.15, 0.05⟩),
   ("ABWL", ⟨0.30, 0.25, 0.20, 0.15, 0.10⟩),
   ("ABML", ⟨0.30, 0.25, 0.20, 0.15, 0.10⟩),
   ("ABWC", ⟨0.25, 0.25, 0.25, 0.15, 0.10⟩),
   ("ABMC", ⟨0.30, 0.25, 0.20, 0.15, 0.10⟩),
   ("IPWL", ⟨0.25, 0.30, 0.25, 0.10, 0.10⟩),
   ("IPML", ⟨0.30, 0.30, 0.20, 0.10, 0.10⟩),
   ("IPWC", ⟨0.25, 0.30, 0.25, 0.10, 0.10⟩),
   ("IPMC", ⟨0.30, 0.30, 0.20, 0.10, 0.10⟩),
   ("IBWL", ⟨0.20, 0.25, 0.25, 0.15, 0.15⟩),
   ("IBML", ⟨0.25, 0.25, 0.25, 0.15, 0.10⟩),
   ("IBWC", ⟨0.20, 0.25, 0.30, 0.15, 0.10⟩),
   ("IBMC", ⟨0.25, 0.25, 0.25, 0.15, 0.10⟩)]

/-! ## chatbot/utils.py — safe_float (lines 141-156)

`safe_float` maps None / NaN / empty / "nan" / unparseable strings to None
and numeric values (commas stripped) to their float.  A cell of a pandas row
is embedded as a `CellValue`; Python's string-to-float parsing is abstracted:
a parseable (possibly comma-formatted) string carries the rational it parses
to, and all unparseable shapes are separate constructors. -/

inductive CellValue where
  | absent : CellValue
  | nan : CellValue
  | emptyStr : CellValue
  | badStr : CellValue
  | numStr : ℚ → CellValue
  | num : ℚ → CellValue
deriving DecidableEq

/-- `safe_float` (utils.py lines 141-156). -/
def safe_float : CellValue → Option ℚ
  | .absent => none
  | .nan => none
  | .emptyStr => none
  | .badStr => none
  | .numStr q => some q
  | .num q => some q

/-! ## scripts/generate_etf_cache.py — factor scores (lines 206-273) -/

namespace ETFCacheGenerator

/-- `_calculate_return_score` (generate_etf_cache.py lines 206-220). -/
def _calculate_return_score (return_1y return_3m : CellValue) : ℚ :=
  match safe_float return_1y with
  | some r => max 0 (min 1 ((r + 50) / 100))
  | none =>
    match safe_float return_3m with
    | some r => max 0 (min 1 ((r + 20) / 40))
    | none => 1 / 2

/-- `_calculate_risk_adjusted_score` (generate_etf_cache.py lines 222-234). -/
def _calculate_risk_adjusted_score (return_1y volatility : CellValue) : ℚ :=
  match safe_float return_1y, safe_float volatility with
  | some r, some v => if 0 < v then max 0 (min 1 ((r / v + 2) / 4)) else 1 / 2
  | _, _ => 1 / 2

/-- `_calculate_cost_efficiency_score` (generate_etf_cache.py lines 236-247). -/
def _calculate_cost_efficiency_score (expense : CellValue) : ℚ :=
  match safe_float expense with
  | some e => max 0 (min 1 (1 - e / 3))
  | none => 1 / 2

/-- `_calculate_liquidity_score` (generate_etf_cache.py lines 249-260). -/
def _calculate_liquidity_score (volume : CellValue) : ℚ :=
  match safe_float volume with
  | some v => max 0 (min 1 (v / 1000000))
  | none => 1 / 2

/-- `_calculate_stability_score` (generate_etf_cache.py lines 262-273).
NOTE: the divisor in the source is `10000000000` (10^10), although the
comment on the same line says 1000억원 (10^11). -/
def _calculate_stability_score (aum : CellValue) : ℚ :=
  match safe_float aum with
  | some a => max 0 (min 1 (a / 10000000000))
  | none => 1 / 2

end ETFCacheGenerator

/-! ## chatbot/recommendation_engine.py — factor scores (lines 228-295) -/

namespace ETFRecommendationEngine

/-- `_calculate_return_score` (recommendation_engine.py lines 228-242). -/
def _calculate_return_score (return_1y return_3m : CellValue) : ℚ :=
  match safe_float return_1y with
  | some r => max 0 (min 1 ((r + 50) / 100))
  | none =>
    match safe_float return_3m with
    | some r => max 0 (min 1 ((r + 20) / 40))
    | none => 1 / 2

/-- `_calculate_risk_adjusted_score` (recommendation_engine.py lines 244-256). -/
def _calculate_risk_adjusted_score (return_1y volatility : CellValue) : ℚ :=
  match safe_float return_1y, safe_float volatility with
  | some r, some v => if 0 < v then max 0 (min 1 ((r / v + 2) / 4)) else 1 / 2
  | _, _ => 1 / 2

/-- `_calculate_cost_efficiency_score` (recommendation_engine.py lines 258-269). -/
def _calculate_cost_efficiency_score (expense : CellValue) : ℚ :=
  match safe_float expense with
  | some e => max 0 (min 1 (1 - e / 3))
  | none => 1 / 2

/-- `_calculate_liquidity_score` (recommendation_engine.py lines 271-282). -/
def _calculate_liquidity_score (volume : CellValue) : ℚ :=
  match safe_float volume with
  | some v => max 0 (min 1 (v / 1000000))
  | none => 1 / 2

/-- `_calculate_stability_score` (recommendation_engine.py lines 284-295):
divisor `100000000000` (10^11, 1000억원). -/
def _calculate_stability_score (aum : CellValue) : ℚ :=
  match safe_float aum with
  | some a => max 0 (min 1 (a / 100000000000))
  | none => 1 / 2

end ETFRecommendationEngine

/-! ## scripts/generate_etf_cache.py — _apply_level_filters (lines 305-337)

The loop `for level in range(1, 6): df.loc[df['risk_tier'] <=
config.get_risk_tier_limit(level), 'level'] = level` assigns each row the
LAST level whose limit its tier satisfies (no row is removed), then
`df['level'] = df['level'].fillna(3)`.  A row's nullable `risk_tier` column
is `Option ℚ`; `NaN <= limit` is False in pandas, matching the `none` case. -/

/-- One row of the merged frame entering `_apply_level_filters`; only the
name and `risk_tier` columns matter for the level assignment. -/
structure GenRow where
  itmsNm : String
  risk_tier : Option ℚ
deriving DecidableEq

/-- The `for level in range(1, 6)` loop: the accumulator is the row's
`level` cell, initially NaN (`none`). -/
def levelLoop (tier : Option ℚ) : Option ℕ :=
  ([1, 2, 3, 4, 5] : List ℕ).foldl
    (fun acc level =>
      match tier with
      | some t => if t ≤ (get_risk_tier_limit level : ℚ) then some level else acc
      | none => acc)
    none

/-- The row's final `level` after `fillna(3)`. -/
def assignLevel (tier : Option ℚ) : ℕ := (levelLoop tier).getD 3

/-- `_apply_level_filters`: every row is kept and paired with its assigned
level (the column selection at the end drops no rows). -/
def _apply_level_filters (rows : List GenRow) : List (GenRow × ℕ) :=
  rows.map (fun r => (r, assignLevel r.risk_tier))

/-! ## scripts/precompute_etf_scores_backup.py — process_single_etf
(lines 148-237) and the record shape of `_create_record` (lines 425-471). -/

/-- The five factor scores computed per ETF inside the WMTI loop. -/
structure FactorScores where
  return_score : ℚ
  risk_adjusted_score : ℚ
  cost_efficiency_score : ℚ
  liquidity_score : ℚ
  stability_score : ℚ
deriving DecidableEq

/-- The WMTI-weighted sum of the five factor scores
(precompute_etf_scores_backup.py lines 218-223, before the multiplication
by `effective_score`). -/
def wmtiFinal (w : WmtiWeights) (s : FactorScores) : ℚ :=
  s.return_score * w.return_weight +
  s.risk_adjusted_score * w.risk_adjusted_return_weight +
  s.cost_efficiency_score * w.cost_efficiency_weight +
  s.liquidity_score * w.liquidity_weight +
  s.stability_score * w.stability_weight

/-- A cache record as built by `_create_record`: the fields the claims are
about (display metadata omitted). -/
structure CacheRecord where
  level : ℕ
  wmti_type : String
  base_score : ℚ
  final_score : ℚ
  risk_tier : ℤ
deriving DecidableEq

/-- `process_single_etf` (lines 186-233): for each level 1-5, check the
risk-tier policy — a fund with `risk_tier == -1` (unmeasurable) is skipped
at level 1 and half-weighted (`effective_score = base_score * 0.5`)
elsewhere, a fund with `risk_tier > risk_limit` is skipped — then emit one
record per WMTI type with
`final_score = (weighted factor sum) * effective_score`. -/
def process_single_etf (base_score : ℚ) (risk_tier : ℤ) (s : FactorScores) :
    List CacheRecord :=
  ([1, 2, 3, 4, 5] : List ℕ).flatMap (fun level =>
    let risk_limit := get_risk_tier_limit level
    if risk_tier = -1 then
      if level = 1 then []
      else
        WMTI_TYPE_WEIGHTS.map (fun p =>
          ⟨level, p.1, base_score, wmtiFinal p.2 s * (base_score * 0.5), risk_tier⟩)
    else if risk_limit < risk_tier then []
    else
      WMTI_TYPE_WEIGHTS.map (fun p =>
        ⟨level, p.1, base_score, wmtiFinal p.2 s * base_score, risk_tier⟩))

/-! ## scripts/precompute_etf_scores_backup.py — _normalize_stability_score
(lines 396-423): parses "1,234억원"-style strings (×10^8 won) or plain
numbers, divides by 10^11, and falls back to 0.5. -/

/-- An AUM cell as `_normalize_stability_score` sees it: missing/NaN, a
"…억원" string (carrying the parsed number of 억원), a plain number, or an
unparseable value. -/
inductive AumCell where
  | missing : AumCell
  | eokStr : ℚ → AumCell
  | numVal : ℚ → AumCell
  | unparseable : AumCell
deriving DecidableEq

namespace ETFCacheBuilder

/-- `_normalize_stability_score` (precompute_etf_scores_backup.py
lines 396-423). -/
def _normalize_stability_score (aum : AumCell) : ℚ :=
  match aum with
  | .missing => 1 / 2
  | .unparseable => 1 / 2
  | .eokStr q => max 0 (min 1 ((q * 100000000) / 100000000000))
  | .numVal q => max 0 (min 1 (q / 100000000000))

end ETFCacheBuilder

/-! ## Helper lemmas on folds, running maxima and prefix products -/

lemma le_foldl_max (l : List ℚ) : ∀ a x : ℚ, (x ≤ a ∨ x ∈ l) → x ≤ l.foldl max a := by
  induction l with
  | nil =>
    intro a x h
    rcases h with h | h
    · exact h
    · simp at h
  | cons y l ih =>
    intro a x h
    simp only [List.foldl_cons]
    apply ih
    rcases h with h | h
    · exact Or.inl (le_trans h (le_max_left a y))
    · rcases List.mem_cons.mp h with rfl | h
      · exact Or.inl (le_max_right a x)
      · exact Or.inr h

lemma foldl_max_le (l : List ℚ) : ∀ a b : ℚ, a ≤ b → (∀ x ∈ l, x ≤ b) → l.foldl max a ≤ b := by
  induction l with
  | nil =>
    intro a b ha _
    simpa using ha
  | cons y l ih =>
    intro a b ha h
    simp only [List.foldl_cons]
    exact ih (max a y) b (max_le ha (h y (by simp))) (fun x hx => h x (by simp [hx]))

lemma le_foldr_max (l : List ℚ) : ∀ b x : ℚ, (x ≤ b ∨ x ∈ l) → x ≤ l.foldr max b := by
  induction l with
  | nil =>
    intro b x h
    rcases h with h | h
    · exact h
    · simp at h
  | cons y l ih =>
    intro b x h
    simp only [List.foldr_cons]
    rcases h with h | h
    · exact le_trans (ih b x (Or.inl h)) (le_max_right y _)
    · rcases List.mem_cons.mp h with rfl | h
      · exact le_max_left x _
      · exact le_trans (ih b x (Or.inr h)) (le_max_right y _)

lemma listMax_nonneg (l : List ℚ) (hne : l ≠ []) (h : ∀ d ∈ l, 0 ≤ d) : 0 ≤ listMax l := by
  cases l with
  | nil => exact absurd rfl hne
  | cons d ds =>
    exact le_trans (h d (by simp)) (le_foldl_max ds d d (Or.inl le_rfl))

lemma listMax_eq_zero (l : List ℚ) (hne : l ≠ []) (h : ∀ d ∈ l, d = 0) : listMax l = 0 := by
  cases l with
  | nil => exact absurd rfl hne
  | cons d ds =>
    have hd : d = 0 := h d (by simp)
    apply le_antisymm
    · exact foldl_max_le ds d 0 (le_of_eq hd) (fun x hx => le_of_eq (h x (by simp [hx])))
    · calc (0 : ℚ) = d := hd.symm
        _ ≤ ds.foldl max d := le_foldl_max ds d d (Or.inl le_rfl)

lemma cumProds_pos (xs : List ℚ) :
    ∀ acc : ℚ, 0 < acc → (∀ x ∈ xs, 0 < x) → ∀ c ∈ cumProds acc xs, 0 < c := by
  induction xs with
  | nil =>
    intro acc _ _ c hc
    simp [cumProds] at hc
  | cons x xs ih =>
    intro acc hacc hx c hc
    have hx0 : 0 < x := hx x (by simp)
    simp only [cumProds, List.mem_cons] at hc
    rcases hc with rfl | hc
    · exact mul_pos hacc hx0
    · exact ih (acc * x) (mul_pos hacc hx0) (fun y hy => hx y (by simp [hy])) c hc

lemma cumProds_length (xs : List ℚ) : ∀ acc : ℚ, (cumProds acc xs).length = xs.length := by
  induction xs with
  | nil => intro acc; rfl
  | cons x xs ih => intro acc; simp [cumProds, ih]

lemma runningMaxFrom_length (cs : List ℚ) : ∀ m : ℚ, (runningMaxFrom m cs).length = cs.length + 1 := by
  induction cs with
  | nil => intro m; rfl
  | cons c cs ih => intro m; simp [runningMaxFrom, ih]

lemma zip_dd_nonneg (cs : List ℚ) :
    ∀ m c : ℚ, 0 < c → c ≤ m → (∀ x ∈ cs, 0 < x) →
      ∀ d ∈ List.zipWith (fun a b => (a - b) / a) (runningMaxFrom m cs) (c :: cs), 0 ≤ d := by
  induction cs with
  | nil =>
    intro m c hc hcm _ d hd
    simp only [runningMaxFrom, List.zipWith, List.mem_singleton] at hd
    subst hd
    exact div_nonneg (sub_nonneg.mpr hcm) (le_of_lt (lt_of_lt_of_le hc hcm))
  | cons x cs ih =>
    intro m c hc hcm hx d hd
    simp only [runningMaxFrom, List.zipWith, List.mem_cons] at hd
    rcases hd with rfl | hd
    · exact div_nonneg (sub_nonneg.mpr hcm) (le_of_lt (lt_of_lt_of_le hc hcm))
    · have hx0 : 0 < x := hx x (by simp)
      exact ih (max m x) x hx0 (le_max_right m x) (fun y hy => hx y (by simp [hy])) d hd

lemma runningMaxFrom_chain (cs : List ℚ) :
    ∀ c : ℚ, List.Chain (fun a b => a ≤ b) c cs → runningMaxFrom c cs = c :: cs := by
  induction cs with
  | nil => intro c _; rfl
  | cons x cs ih =>
    intro c hch
    cases hch with
    | cons hcx hch =>
      simp only [runningMaxFrom]
      rw [max_eq_right hcx, ih x hch]

lemma cumProds_chain (xs : List ℚ) :
    ∀ acc : ℚ, 0 < acc → (∀ x ∈ xs, 1 ≤ x) →
      List.Chain (fun a b => a ≤ b) acc (cumProds acc xs) := by
  induction xs with
  | nil => intro acc _ _; exact List.Chain.nil
  | cons x xs ih =>
    intro acc hacc hx
    have hx1 : 1 ≤ x := hx x (by simp)
    exact List.Chain.cons (le_mul_of_one_le_right hacc.le hx1)
      (ih (acc * x) (mul_pos hacc (lt_of_lt_of_le one_pos hx1))
        (fun y hy => hx y (by simp [hy])))

lemma chain_imp_chain' (a : ℚ) (l : List ℚ)
    (h : List.Chain (fun x y => x ≤ y) a l) : List.Chain' (fun x y => x ≤ y) l := by
  cases l with
  | nil => trivial
  | cons b l =>
    cases h with
    | cons _ h => exact h

/-- C7: `max_drawdown` follows the cumprod / running-max / relative-drawdown
recipe of the spec; over any window of returns each exceeding −100% it is
never negative, it is exactly 0 when the cumulative-product series is
monotonically non-decreasing, and in particular 0 when all returns are
non-negative. -/
theorem max_drawdown_spec (returns : List ℚ) (hne : returns ≠ [])
    (hr : ∀ r ∈ returns, -1 < r) :
    0 ≤ max_drawdown returns ∧
      (List.Chain' (fun a b => a ≤ b) (cumProds 1 (returns.map (fun r => 1 + r))) →
        max_drawdown returns = 0) ∧
      ((∀ r ∈ returns, 0 ≤ r) → max_drawdown returns = 0) := by
  cases returns with
  | nil => exact absurd rfl hne
  | cons r rs =>
    have hxpos : ∀ x ∈ (r :: rs).map (fun t => 1 + t), 0 < x := by
      intro x hx
      rcases List.mem_map.mp hx with ⟨t, ht, rfl⟩
      have := hr t ht
      linarith
    -- the cumulative product list, in its cons form
    have hcum : cumProds 1 ((r :: rs).map (fun t => 1 + t)) =
        (1 * (1 + r)) :: cumProds (1 * (1 + r)) (rs.map (fun t => 1 + t)) := by
      simp [cumProds]
    have hc0 : 0 < 1 * (1 + r) := by
      have := hr r (by simp)
      nlinarith
    have hrest : ∀ c ∈ cumProds (1 * (1 + r)) (rs.map (fun t => 1 + t)), 0 < c := by
      apply cumProds_pos _ _ hc0
      intro x hx
      exact hxpos x (by simp [hx])
    constructor
    · -- non-negativity
      show 0 ≤ listMax _
      apply listMax_nonneg
      · -- the drawdown list is nonempty
        intro hempty
        have hlen := congrArg List.length hempty
        rw [List.length_zipWith, hcum] at hlen
        simp [runningMax, runningMaxFrom_length, cumProds_length] at hlen
      · intro d hd
        rw [hcum] at hd
        simp only [runningMax] at hd
        exact zip_dd_nonneg _ _ _ hc0 le_rfl hrest d hd
    constructor
    · -- zero when the cumprod series is monotone
      intro hch
      rw [hcum] at hch
      have hch2 : List.Chain (fun a b => a ≤ b) (1 * (1 + r))
          (cumProds (1 * (1 + r)) (rs.map (fun t => 1 + t))) := hch
      show listMax _ = 0
      rw [hcum]
      simp only [runningMax]
      rw [runningMaxFrom_chain _ _ hch2, List.zipWith_same]
      apply listMax_eq_zero
      · simp
      · intro d hd
        rcases List.mem_map.mp hd with ⟨c, _, rfl⟩
        simp
    · -- zero when all returns are non-negative
      intro hnon
      have hone : ∀ x ∈ (r :: rs).map (fun t => 1 + t), 1 ≤ x := by
        intro x hx
        rcases List.mem_map.mp hx with ⟨t, ht, rfl⟩
        have := hnon t ht
        linarith
      have hchain := cumProds_chain ((r :: rs).map (fun t => 1 + t)) 1 one_pos hone
      have hch' := chain_imp_chain' _ _ hchain
      -- reuse the monotone case
      rw [hcum] at hch'
      have hch2 : List.Chain (fun a b => a ≤ b) (1 * (1 + r))
          (cumProds (1 * (1 + r)) (rs.map (fun t => 1 + t))) := hch'
      show listMax _ = 0
      rw [hcum]
      simp only [runningMax]
      rw [runningMaxFrom_chain _ _ hch2, List.zipWith_same]
      apply listMax_eq_zero
      · simp
      · intro d hd
        rcases List.mem_map.mp hd with ⟨c, _, rfl⟩
        simp

/-- C7 witness: the theorem applied to the concrete window `[1/10, -1/20]`. -/
theorem max_drawdown_spec_witness :
    0 ≤ max_drawdown [1/10, -1/20] ∧
      (List.Chain' (fun a b => a ≤ b)
          (cumProds 1 (([1/10, -1/20] : List ℚ).map (fun r => 1 + r))) →
        max_drawdown [1/10, -1/20] = 0) ∧
      ((∀ r ∈ ([1/10, -1/20] : List ℚ), 0 ≤ r) → max_drawdown [1/10, -1/20] = 0) :=
  max_drawdown_spec [1/10, -1/20] (by simp)
    (by intro r hr; fin_cases hr <;> norm_num)

/-! ## C2 / C6 — normalization and the composite risk score -/

/-- A metric's absolute value never exceeds the table-wide maximum used for
normalization. -/
lemma abs_le_maxAbs (table : List RiskRow) (m : RiskRow → ℚ) (r : RiskRow)
    (hr : r ∈ table) : |m r| ≤ maxAbs table m :=
  le_foldr_max _ 0 _ (Or.inr (List.mem_map_of_mem (fun s => |m s|) hr))

lemma n_metric_bounds (table : List RiskRow) (m : RiskRow → ℚ) (r : RiskRow)
    (hr : r ∈ table) (hpos : 0 < maxAbs table m) :
    0 ≤ n_metric table m r ∧ n_metric table m r ≤ 1 := by
  constructor
  · exact div_nonneg (abs_nonneg _) hpos.le
  · show |m r| / maxAbs table m ≤ 1
    rw [div_le_one hpos]
    exact abs_le_maxAbs table m r hr

/-- A two-date table on which global and per-date normalization differ:
`rowA` (date 0) has volatility 1, `rowB` (date 1) has volatility 2. -/
def rowA : RiskRow := ⟨0, 1, 0, 0, 0, 0, 0, 0⟩

def rowB : RiskRow := ⟨1, 2, 0, 0, 0, 0, 0, 0⟩

def exTable : List RiskRow := [rowA, rowB]

/-- C2 counterexample: on `exTable` the code's normalized volatility of
`rowA` is 1/2 (divided by the global maximum 2 taken over both dates),
while the spec's per-date scaling would give 1 (divided by date 0's own
maximum 1). -/
theorem n_metric_not_per_date :
    n_metric exTable RiskRow.vol rowA ≠ n_metric_per_date exTable RiskRow.vol rowA := by
  norm_num [n_metric, n_metric_per_date, maxAbs, exTable, rowA, rowB]

/-- C2 amended: each of the 7 metrics is normalized by dividing its absolute
value by the maximum absolute value of that metric over the ENTIRE filtered
table (per-metric but global across dates, `max_vals` of
calculate_risk_tier.py line 146), not per-date: the divisor bounds every
row's metric regardless of date, and two rows with the same metric magnitude
receive the same normalized value even on different dates. -/
theorem n_metric_global_scaling (table : List RiskRow) (m : RiskRow → ℚ) (r : RiskRow)
    (hr : r ∈ table) :
    |m r| ≤ maxAbs table m ∧
      ∀ s : RiskRow, |m s| = |m r| → n_metric table m s = n_metric table m r := by
  constructor
  · exact abs_le_maxAbs table m r hr
  · intro s h
    simp [n_metric, h]

/-- C2 witness: the amended theorem applied to `rowB` of `exTable`. -/
theorem n_metric_global_scaling_witness :
    |RiskRow.vol rowB| ≤ maxAbs exTable RiskRow.vol ∧
      ∀ s : RiskRow, |RiskRow.vol s| = |RiskRow.vol rowB| →
        n_metric exTable RiskRow.vol s = n_metric exTable RiskRow.vol rowB :=
  n_metric_global_scaling exTable RiskRow.vol rowB (by simp [exTable])

/-- C6: the `W_RISK` weights sum exactly to 1, and for any row of the
filtered table whose seven per-metric maxima are positive, the composite
`Risk_Score` — the weighted sum of the seven normalized metrics — lies
in [0, 1]. -/
theorem Risk_Score_spec (table : List RiskRow) (r : RiskRow) (hr : r ∈ table)
    (h1 : 0 < maxAbs table RiskRow.vol) (h2 : 0 < maxAbs table RiskRow.max_dd)
    (h3 : 0 < maxAbs table RiskRow.VaR) (h4 : 0 < maxAbs table RiskRow.beta)
    (h5 : 0 < maxAbs table RiskRow.sharpe) (h6 : 0 < maxAbs table RiskRow.sortino)
    (h7 : 0 < maxAbs table RiskRow.down_dev) :
    W_vol + W_max_dd + W_VaR + W_beta + W_sharpe + W_sortino + W_down_dev = 1 ∧
      0 ≤ Risk_Score table r ∧ Risk_Score table r ≤ 1 := by
  obtain ⟨a1, b1⟩ := n_metric_bounds table RiskRow.vol r hr h1
  obtain ⟨a2, b2⟩ := n_metric_bounds table RiskRow.max_dd r hr h2
  obtain ⟨a3, b3⟩ := n_metric_bounds table RiskRow.VaR r hr h3
  obtain ⟨a4, b4⟩ := n_metric_bounds table RiskRow.beta r hr h4
  obtain ⟨a5, b5⟩ := n_metric_bounds table RiskRow.sharpe r hr h5
  obtain ⟨a6, b6⟩ := n_metric_bounds table RiskRow.sortino r hr h6
  obtain ⟨a7, b7⟩ := n_metric_bounds table RiskRow.down_dev r hr h7
  refine ⟨by norm_num [W_vol, W_max_dd, W_VaR, W_beta, W_sharpe, W_sortino, W_down_dev],
    ?_, ?_⟩
  · simp only [Risk_Score, W_vol, W_max_dd, W_VaR, W_beta, W_sharpe, W_sortino, W_down_dev]
    norm_num
    linarith
  · simp only [Risk_Score, W_vol, W_max_dd, W_VaR, W_beta, W_sharpe, W_sortino, W_down_dev]
    norm_num
    linarith

/-- A one-row table on which every per-metric maximum is 1. -/
def rowW : RiskRow := ⟨0, 1, 1, 1, 1, 1, 1, 1⟩

/-- C6 witness: the theorem applied to the one-row table `[rowW]`. -/
theorem Risk_Score_spec_witness :
    W_vol + W_max_dd + W_VaR + W_beta + W_sharpe + W_sortino + W_down_dev = 1 ∧
      0 ≤ Risk_Score [rowW] rowW ∧ Risk_Score [rowW] rowW ≤ 1 :=
  Risk_Score_spec [rowW] rowW (by simp)
    (by norm_num [maxAbs, rowW]) (by norm_num [maxAbs, rowW]) (by norm_num [maxAbs, rowW])
    (by norm_num [maxAbs, rowW]) (by norm_num [maxAbs, rowW]) (by norm_num [maxAbs, rowW])
    (by norm_num [maxAbs, rowW])

/-! ## C5 — the per-date quantile tiering -/

/-- A qcut label never exceeds 4: there are at most four interior edges. -/
lemma risk_tier_le_four (xs : List ℚ) (x : ℚ) : risk_tier xs x ≤ 4 := by
  have hcount : risk_tier xs x ≤ (((qcutEdges xs).drop 1).dropLast).length :=
    List.countP_le_length _
  have hdedup : (qcutEdges xs).length ≤ 6 := by
    have hsub :=
      (List.dedup_sublist
        ((([0, 1/5, 2/5, 3/5, 4/5, 1] : List ℚ).map (fun p => quantileLin xs p)))).length_le
    simpa [qcutEdges] using hsub
  have hlen : (((qcutEdges xs).drop 1).dropLast).length = (qcutEdges xs).length - 1 - 1 := by
    simp [List.length_dropLast, List.length_drop]
  omega

/-- C5: for any date's cross-section of risk scores, the assigned tiers take
at most 5 distinct values, and the qcut label is monotone in the score — a
strictly higher `Risk_Score` never receives a strictly lower tier. -/
theorem risk_tier_spec (xs : List ℚ) :
    ((xs.map (fun x => risk_tier xs x)).dedup).length ≤ 5 ∧
      ∀ x y : ℚ, x ≤ y → risk_tier xs x ≤ risk_tier xs y := by
  constructor
  · have hnodup : ((xs.map (fun x => risk_tier xs x)).dedup).Nodup := List.nodup_dedup _
    have hmem : ∀ v ∈ (xs.map (fun x => risk_tier xs x)).dedup, v ∈ Finset.range 5 := by
      intro v hv
      rcases List.mem_map.mp (List.mem_dedup.mp hv) with ⟨x, _, rfl⟩
      simp only [Finset.mem_range]
      exact lt_of_le_of_lt (risk_tier_le_four xs x) (by norm_num)
    calc ((xs.map (fun x => risk_tier xs x)).dedup).length
        = ((xs.map (fun x => risk_tier xs x)).dedup).toFinset.card :=
          (List.toFinset_card_of_nodup hnodup).symm
      _ ≤ (Finset.range 5).card :=
          Finset.card_le_card (fun v hv => hmem v (List.mem_toFinset.mp hv))
      _ = 5 := Finset.card_range 5
  · intro x y hxy
    apply List.countP_mono_left
    intro e _ he
    simp only [decide_eq_true_eq] at he ⊢
    exact lt_of_lt_of_le he hxy

/-! ## C1 / C9 — eligibility in the two cache builders -/

/-- Membership in `process_single_etf`'s output characterized: every record
keeps the fund's tier, its level comes from 1-5, and either the fund was
unmeasurable (tier −1, level ≠ 1) or its tier passed the level's limit. -/
lemma process_single_etf_mem (b : ℚ) (t : ℤ) (s : FactorScores) (rec : CacheRecord)
    (h : rec ∈ process_single_etf b t s) :
    ∃ level ∈ ([1, 2, 3, 4, 5] : List ℕ),
      rec.level = level ∧ rec.risk_tier = t ∧
        ((t = -1 ∧ level ≠ 1) ∨ (t ≠ -1 ∧ t ≤ get_risk_tier_limit level)) := by
  simp only [process_single_etf, List.mem_flatMap] at h
  obtain ⟨level, hlv, h⟩ := h
  refine ⟨level, hlv, ?_⟩
  by_cases ht : t = -1
  · subst ht
    rw [if_pos rfl] at h
    by_cases hl : level = 1
    · rw [if_pos hl] at h
      simp at h
    · rw [if_neg hl] at h
      obtain ⟨p, hp, rfl⟩ := List.mem_map.mp h
      exact ⟨rfl, rfl, Or.inl ⟨rfl, hl⟩⟩
  · rw [if_neg ht] at h
    by_cases hlt : get_risk_tier_limit level < t
    · rw [if_pos hlt] at h
      simp at h
    · rw [if_neg hlt] at h
      obtain ⟨p, hp, rfl⟩ := List.mem_map.mp h
      exact ⟨rfl, rfl, Or.inr ⟨ht, not_lt.mp hlt⟩⟩

/-- The sentinel tier −1 passes every configured level limit. -/
lemma neg_one_le_limits :
    ∀ l ∈ ([1, 2, 3, 4, 5] : List ℕ), (-1 : ℤ) ≤ get_risk_tier_limit l := by decide

/-- C1: eligibility by construction.  In `generate_etf_cache.py`, every row
of `_apply_level_filters`' output whose `risk_tier` is a number within the
classifier's range (≤ 5) satisfies `risk_tier ≤ LevelRiskLimit[level]` for
its assigned level; in `precompute_etf_scores_backup.py`, every record of
`process_single_etf` satisfies `risk_tier ≤ LevelRiskLimit[level]`. -/
theorem cache_eligibility (rows : List GenRow) (b : ℚ) (t : ℤ) (s : FactorScores)
    (h : ∀ r ∈ rows, ∀ q : ℚ, r.risk_tier = some q → q ≤ 5) :
    (∀ p ∈ _apply_level_filters rows, ∀ q : ℚ, p.1.risk_tier = some q →
        q ≤ (get_risk_tier_limit p.2 : ℚ)) ∧
      ∀ rec ∈ process_single_etf b t s, rec.risk_tier ≤ get_risk_tier_limit rec.level := by
  constructor
  · intro p hp q hq
    obtain ⟨r, hr, rfl⟩ := List.mem_map.mp hp
    have hq5 : q ≤ 5 := h r hr q hq
    have hl5 : get_risk_tier_limit 5 = 5 := rfl
    have hc5 : ((get_risk_tier_limit 5 : ℤ) : ℚ) = 5 := by rw [hl5]; norm_num
    have hassign : assignLevel r.risk_tier = 5 := by
      unfold assignLevel levelLoop
      rw [hq]
      simp only [List.foldl_cons, List.foldl_nil]
      rw [if_pos (by rw [hc5]; exact hq5)]
      rfl
    show q ≤ (get_risk_tier_limit (assignLevel r.risk_tier) : ℚ)
    rw [hassign, hc5]
    exact hq5
  · intro rec hrec
    obtain ⟨level, hlv, hlevel, htier, hcase⟩ := process_single_etf_mem b t s rec hrec
    rw [hlevel, htier]
    rcases hcase with ⟨rfl, _⟩ | ⟨_, hle⟩
    · exact neg_one_le_limits level hlv
    · exact hle

/-- C1 witness: the theorem applied to a one-row frame with tier 2 and a
fund processed with measured tier 0. -/
theorem cache_eligibility_witness :
    (∀ p ∈ _apply_level_filters [⟨"KODEX 200", some 2⟩], ∀ q : ℚ,
        p.1.risk_tier = some q → q ≤ (get_risk_tier_limit p.2 : ℚ)) ∧
      ∀ rec ∈ process_single_etf 1 0 ⟨1, 1, 1, 1, 1⟩,
        rec.risk_tier ≤ get_risk_tier_limit rec.level :=
  cache_eligibility [⟨"KODEX 200", some 2⟩] 1 0 ⟨1, 1, 1, 1, 1⟩ (by
    intro r hr q hq
    rcases List.mem_singleton.mp hr with rfl
    have h2 : (2 : ℚ) = q := Option.some.inj hq
    rw [← h2]
    norm_num)

/-- C9: the unmeasurable-fund policy of `process_single_etf`.  With
`risk_tier = -1` no record is emitted at level 1, while for every level 2-5
and every WMTI archetype a record IS emitted whose final score is the
archetype-weighted factor sum times the penalized base score
(`base_score * 0.5`); and a fund with a measured tier emits no record at any
level whose limit its tier exceeds. -/
theorem process_single_etf_policy (b : ℚ) (s : FactorScores) :
    (∀ rec ∈ process_single_etf b (-1) s, rec.level ≠ 1) ∧
      (∀ p ∈ WMTI_TYPE_WEIGHTS, ∀ level ∈ ([2, 3, 4, 5] : List ℕ),
        (⟨level, p.1, b, wmtiFinal p.2 s * (b * 0.5), -1⟩ : CacheRecord) ∈
          process_single_etf b (-1) s) ∧
      ∀ t : ℤ, 0 ≤ t → ∀ rec ∈ process_single_etf b t s,
        t ≤ get_risk_tier_limit rec.level := by
  refine ⟨?_, ?_, ?_⟩
  · intro rec hrec
    obtain ⟨level, _, hlevel, _, hcase⟩ := process_single_etf_mem b (-1) s rec hrec
    rcases hcase with ⟨_, hne1⟩ | ⟨hno, _⟩
    · rw [hlevel]; exact hne1
    · exact absurd rfl hno
  · intro p hp level hlv
    fin_cases hlv
    · exact List.mem_flatMap.mpr ⟨2, by simp, List.mem_map_of_mem _ hp⟩
    · exact List.mem_flatMap.mpr ⟨3, by simp, List.mem_map_of_mem _ hp⟩
    · exact List.mem_flatMap.mpr ⟨4, by simp, List.mem_map_of_mem _ hp⟩
    · exact List.mem_flatMap.mpr ⟨5, by simp, List.mem_map_of_mem _ hp⟩
  · intro t ht rec hrec
    obtain ⟨level, hlv, hlevel, htier, hcase⟩ := process_single_etf_mem b t s rec hrec
    rw [hlevel]
    rcases hcase with ⟨rfl, _⟩ | ⟨_, hle⟩
    · omega
    · exact hle

/-! ## C3 — the Sharpe-ratio formula -/

lemma sharpe_eq_mean_div_std (rs : List ℝ) : sharpe rs = mean_r rs / std_sample rs := by
  have hc : Real.sqrt 252 ≠ 0 := ne_of_gt (Real.sqrt_pos.mpr (by norm_num))
  unfold sharpe std_r
  rw [div_mul_eq_mul_div, mul_div_mul_right _ _ hc]

lemma sharpe_spec_rel (rs : List ℝ) : sharpe_per_spec rs = sharpe rs * Real.sqrt 252 := by
  have hsq : Real.sqrt 252 * Real.sqrt 252 = 252 := Real.mul_self_sqrt (by norm_num)
  unfold sharpe_per_spec sharpe std_r
  rw [div_mul_eq_mul_div, div_mul_eq_mul_div, mul_assoc, hsq]

/-- C3 amended: the reported Sharpe ratio equals the mean trailing daily
return divided by the UN-annualized sample standard deviation of the same
window (the code divides by the annualized volatility and then multiplies by
√252, cancelling the annualization); the spec's formula
(mean × 252) / annualized volatility exceeds the code's value by a factor of
√252. -/
theorem sharpe_formula (rs : List ℝ) :
    sharpe rs = mean_r rs / std_sample rs ∧
      sharpe_per_spec rs = sharpe rs * Real.sqrt 252 :=
  ⟨sharpe_eq_mean_div_std rs, sharpe_spec_rel rs⟩

/-- A full 126-observation window: one +20% day followed by 125 flat days. -/
noncomputable def exReturns : List ℝ := (0.2 : ℝ) :: List.replicate 125 0

lemma exReturns_length : exReturns.length = 126 := by simp [exReturns]

lemma exReturns_mean : mean_r exReturns = 0.2 / 126 := by
  rw [mean_r, exReturns_length]
  norm_num [exReturns]

lemma exReturns_var_pos : 0 < var_sample exReturns := by
  rw [var_sample, exReturns_length]
  apply div_pos
  · rw [exReturns_mean]
    simp only [exReturns, List.map_cons, List.sum_cons, List.map_replicate,
      List.sum_replicate, nsmul_eq_mul]
    norm_num
  · norm_num

lemma exReturns_std_pos : 0 < std_sample exReturns :=
  Real.sqrt_pos.mpr exReturns_var_pos

/-- C3 counterexample: on the concrete 126-day window `exReturns` the code's
`sharpe` differs from the spec's (mean × 252) / annualized-volatility
formula. -/
theorem sharpe_ne_spec : sharpe exReturns ≠ sharpe_per_spec exReturns := by
  have hmean_pos : 0 < mean_r exReturns := by
    rw [exReturns_mean]
    norm_num
  have hcode_pos : 0 < sharpe exReturns := by
    rw [sharpe_eq_mean_div_std]
    exact div_pos hmean_pos exReturns_std_pos
  have hc1 : (1 : ℝ) < Real.sqrt 252 := by
    rw [show (1 : ℝ) = Real.sqrt 1 by simp]
    exact Real.sqrt_lt_sqrt (by norm_num) (by norm_num)
  intro heq
  rw [sharpe_spec_rel] at heq
  have hlt : sharpe exReturns * 1 < sharpe exReturns * Real.sqrt 252 :=
    mul_lt_mul_of_pos_left hc1 hcode_pos
  rw [mul_one, ← heq] at hlt
  exact lt_irrefl _ hlt

/-! ## C4 — the AUM divisor of the stability score -/

/-- C4: at AUM = 50,000,000,000 (500억원) the generator's
`_calculate_stability_score` returns 1.0 (it divides by 10^10, one zero
short of the 1000억원 = 10^11 its own comment names), while the
recommendation engine and the backup builder — both dividing by 10^11 —
return 0.5: the three code paths do NOT agree. -/
theorem stability_score_divergence :
    ETFCacheGenerator._calculate_stability_score (.num 50000000000) = 1 ∧
      ETFRecommendationEngine._calculate_stability_score (.num 50000000000) = 1 / 2 ∧
      ETFCacheBuilder._normalize_stability_score (.numVal 50000000000) = 1 / 2 ∧
      ETFCacheGenerator._calculate_stability_score (.num 50000000000) ≠
        ETFRecommendationEngine._calculate_stability_score (.num 50000000000) := by
  refine ⟨?_, ?_, ?_, ?_⟩ <;>
    norm_num [ETFCacheGenerator._calculate_stability_score,
      ETFRecommendationEngine._calculate_stability_score,
      ETFCacheBuilder._normalize_stability_score, safe_float]

/-! ## C8 — the return-score fallback chain -/

/-- C8: the return score prefers the 1-year return, mapped through
clamp((r+50)/100); falls back to the 3-month return through
clamp((r+20)/40); defaults to 0.5 when neither parses — and the engine's
copy computes exactly the same function. -/
theorem return_score_spec (c1y c3m : CellValue) :
    (∀ r : ℚ, safe_float c1y = some r →
        ETFCacheGenerator._calculate_return_score c1y c3m =
          max 0 (min 1 ((r + 50) / 100))) ∧
      (safe_float c1y = none → ∀ r : ℚ, safe_float c3m = some r →
        ETFCacheGenerator._calculate_return_score c1y c3m =
          max 0 (min 1 ((r + 20) / 40))) ∧
      (safe_float c1y = none → safe_float c3m = none →
        ETFCacheGenerator._calculate_return_score c1y c3m = 1 / 2) ∧
      ETFRecommendationEngine._calculate_return_score c1y c3m =
        ETFCacheGenerator._calculate_return_score c1y c3m := by
  unfold ETFCacheGenerator._calculate_return_score
    ETFRecommendationEngine._calculate_return_score
  cases h1 : safe_float c1y <;> cases h2 : safe_float c3m <;> simp

/-! ## C10 — totality and bounds of the five factor-score functions -/

lemma clamp01 (x : ℚ) : 0 ≤ max 0 (min 1 x) ∧ max 0 (min 1 x) ≤ 1 :=
  ⟨le_max_left 0 _, max_le (by norm_num) (min_le_left 1 x)⟩

lemma return_score_bounds (c1y c3m : CellValue) :
    0 ≤ ETFCacheGenerator._calculate_return_score c1y c3m ∧
      ETFCacheGenerator._calculate_return_score c1y c3m ≤ 1 := by
  unfold ETFCacheGenerator._calculate_return_score
  cases safe_float c1y with
  | some r => exact clamp01 _
  | none =>
    cases safe_float c3m with
    | some r => exact clamp01 _
    | none => norm_num

lemma risk_adjusted_bounds (c1y cvol : CellValue) :
    0 ≤ ETFCacheGenerator._calculate_risk_adjusted_score c1y cvol ∧
      ETFCacheGenerator._calculate_risk_adjusted_score c1y cvol ≤ 1 := by
  unfold ETFCacheGenerator._calculate_risk_adjusted_score
  cases safe_float c1y with
  | none => norm_num
  | some r =>
    cases safe_float cvol with
    | none => norm_num
    | some v =>
      show 0 ≤ (if 0 < v then max 0 (min 1 ((r / v + 2) / 4)) else 1 / 2) ∧
        (if 0 < v then max 0 (min 1 ((r / v + 2) / 4)) else 1 / 2) ≤ 1
      by_cases hv : 0 < v
      · rw [if_pos hv]
        exact clamp01 _
      · rw [if_neg hv]
        norm_num

lemma cost_efficiency_bounds (cexp : CellValue) :
    0 ≤ ETFCacheGenerator._calculate_cost_efficiency_score cexp ∧
      ETFCacheGenerator._calculate_cost_efficiency_score cexp ≤ 1 := by
  unfold ETFCacheGenerator._calculate_cost_efficiency_score
  cases safe_float cexp with
  | some e => exact clamp01 _
  | none => norm_num

lemma liquidity_bounds (cvolu : CellValue) :
    0 ≤ ETFCacheGenerator._calculate_liquidity_score cvolu ∧
      ETFCacheGenerator._calculate_liquidity_score cvolu ≤ 1 := by
  unfold ETFCacheGenerator._calculate_liquidity_score
  cases safe_float cvolu with
  | some v => exact clamp01 _
  | none => norm_num

lemma stability_bounds (caum : CellValue) :
    0 ≤ ETFCacheGenerator._calculate_stability_score caum ∧
      ETFCacheGenerator._calculate_stability_score caum ≤ 1 := by
  unfold ETFCacheGenerator._calculate_stability_score
  cases safe_float caum with
  | some a => exact clamp01 _
  | none => norm_num

lemma engine_stability_bounds (caum : CellValue) :
    0 ≤ ETFRecommendationEngine._calculate_stability_score caum ∧
      ETFRecommendationEngine._calculate_stability_score caum ≤ 1 := by
  unfold ETFRecommendationEngine._calculate_stability_score
  cases safe_float caum with
  | some a => exact clamp01 _
  | none => norm_num

/-- C10: every factor-score function of the cache generator and of the
recommendation engine is total with range inside [0, 1], and returns exactly
0.5 whenever the field(s) it needs fail to parse (`safe_float` = None).  The
engine's return / risk-adjusted / cost / liquidity functions are the same
function as the generator's; its stability function (whose divisor differs)
is bounded and defaulted on its own. -/
theorem factor_scores_total (c1y c3m cvol cexp cvolu caum : CellValue) :
    (0 ≤ ETFCacheGenerator._calculate_return_score c1y c3m ∧
        ETFCacheGenerator._calculate_return_score c1y c3m ≤ 1) ∧
      (0 ≤ ETFCacheGenerator._calculate_risk_adjusted_score c1y cvol ∧
        ETFCacheGenerator._calculate_risk_adjusted_score c1y cvol ≤ 1) ∧
      (0 ≤ ETFCacheGenerator._calculate_cost_efficiency_score cexp ∧
        ETFCacheGenerator._calculate_cost_efficiency_score cexp ≤ 1) ∧
      (0 ≤ ETFCacheGenerator._calculate_liquidity_score cvolu ∧
        ETFCacheGenerator._calculate_liquidity_score cvolu ≤ 1) ∧
      (0 ≤ ETFCacheGenerator._calculate_stability_score caum ∧
        ETFCacheGenerator._calculate_stability_score caum ≤ 1) ∧
      (safe_float c1y = none → safe_float c3m = none →
        ETFCacheGenerator._calculate_return_score c1y c3m = 1 / 2) ∧
      (safe_float c1y = none ∨ safe_float cvol = none →
        ETFCacheGenerator._calculate_risk_adjusted_score c1y cvol = 1 / 2) ∧
      (safe_float cexp = none →
        ETFCacheGenerator._calculate_cost_efficiency_score cexp = 1 / 2) ∧
      (safe_float cvolu = none →
        ETFCacheGenerator._calculate_liquidity_score cvolu = 1 / 2) ∧
      (safe_float caum = none →
        ETFCacheGenerator._calculate_stability_score caum = 1 / 2) ∧
      (ETFRecommendationEngine._calculate_return_score c1y c3m =
        ETFCacheGenerator._calculate_return_score c1y c3m) ∧
      (ETFRecommendationEngine._calculate_risk_adjusted_score c1y cvol =
        ETFCacheGenerator._calculate_risk_adjusted_score c1y cvol) ∧
      (ETFRecommendationEngine._calculate_cost_efficiency_score cexp =
        ETFCacheGenerator._calculate_cost_efficiency_score cexp) ∧
      (ETFRecommendationEngine._calculate_liquidity_score cvolu =
        ETFCacheGenerator._calculate_liquidity_score cvolu) ∧
      (0 ≤ ETFRecommendationEngine._calculate_stability_score caum ∧
        ETFRecommendationEngine._calculate_stability_score caum ≤ 1) ∧
      (safe_float caum = none →
        ETFRecommendationEngine._calculate_stability_score caum = 1 / 2) := by
  refine ⟨return_score_bounds c1y c3m, risk_adjusted_bounds c1y cvol,
    cost_efficiency_bounds cexp, liquidity_bounds cvolu, stability_bounds caum,
    ?_, ?_, ?_, ?_, ?_, rfl, rfl, rfl, rfl, engine_stability_bounds caum, ?_⟩
  · intro h1 h2
    unfold ETFCacheGenerator._calculate_return_score
    rw [h1, h2]
  · intro h
    unfold ETFCacheGenerator._calculate_risk_adjusted_score
    rcases h with h | h
    · rw [h]
    · rw [h]
      cases safe_float c1y <;> rfl
  · intro h
    unfold ETFCacheGenerator._calculate_cost_efficiency_score
    rw [h]
  · intro h
    unfold ETFCacheGenerator._calculate_liquidity_score
    rw [h]
  · intro h
    unfold ETFCacheGenerator._calculate_stability_score
    rw [h]
  · intro h
    unfold ETFRecommendationEngine._calculate_stability_score
    rw [h]

end KB
